import Mathlib

/-!
Shallow embedding of the Avalon StarGo LX200 driver
(`indi-avalon/lx200stargo.cpp`) for checking its specification.

The embedding models the protocol engine (`sendQuery`), the unsolicited
status-telegram decoder (`ParseMotionState`), the coordinate and numeric
codecs (`getEqCoordinates`, `setSiteLongitude`, `setTrackingAdjustment`),
the poll cycle (`ReadScopeStatus`), the pier-side synchronisation
(`syncSideOfPier`) and the guide-pulse entry points (`GuideNorth`,
`GuideSouth`, `GuideEast`, `GuideWest`).

The serial transport is modelled as lists of `#`-terminated frames (with
the terminator already stripped, as the C `receive` helper strips it):
one list of frames buffered before the command is transmitted and one
list of frames arriving afterwards within the wait budget.  A `receive`
with an exhausted list fails, which is how the C code detects both
"no buffered data" (zero wait) and "wait budget elapsed".
-/

namespace StarGo

/-! ## Telegram state (CurrentMotorsState / CurrentTrackMode / CurrentSlewRate) -/

/-- Motor power states, `TelescopeMotorsState` in the source. -/
inductive MotorsState
  | motorsOff
  | motorsDecOnly
  | motorsRaOnly
  | motorsOn
deriving DecidableEq, Repr

/-- Tracking modes, `TelescopeTrackMode` in the source (`TRACK_NONE` was removed). -/
inductive TrackMode
  | trackSidereal
  | trackSolar
  | trackLunar
deriving DecidableEq, Repr

/-- Slew speed classes, `TelescopeSlewRate` in the source. -/
inductive SlewRate
  | slewGuide
  | slewCentering
  | slewFind
  | slewMax
deriving DecidableEq, Repr

/-- The three shared fields written by `ParseMotionState`. -/
structure TelState where
  motors : MotorsState
  track : TrackMode
  slew : SlewRate
deriving DecidableEq, Repr

/-! ## Telegram recognition: `sscanf(state, ":Z1%01d%01d%01d", ...) == 3`

`%01d` skips leading whitespace and then reads at most one character,
which must be a digit for the conversion to succeed. -/

/-- Whitespace characters skipped by a C `scanf` numeric conversion. -/
def cIsSpace (c : Char) : Bool :=
  c = ' ' || c = '\t' || c = '\n' || c = '\r' || c = '\x0b' || c = '\x0c'

/-- One `%01d` conversion: skip whitespace, then read exactly one digit. -/
def scanDigit1 (cs : List Char) : Option (Nat × List Char) :=
  match cs.dropWhile cIsSpace with
  | c :: rest => if c.isDigit then some (c.toNat - 48, rest) else none
  | [] => none

/-- Decode a frame against the fixed telegram format `:Z1%01d%01d%01d`;
`some (motor, mode, slew)` iff all three conversions succeed
(the C condition `sscanf(...) == 3`). -/
def parseZ1 (frame : String) : Option (Nat × Nat × Nat) :=
  match frame.toList with
  | ':' :: 'Z' :: '1' :: rest =>
    match scanDigit1 rest with
    | none => none
    | some (m, rest1) =>
      match scanDigit1 rest1 with
      | none => none
      | some (t, rest2) =>
        match scanDigit1 rest2 with
        | none => none
        | some (s, _) => some (m, t, s)
  | _ => none

/-- True iff the frame is recognised as an unsolicited motion-state telegram. -/
def isTelegram (frame : String) : Bool :=
  (parseZ1 frame).isSome

/-- The `switch(lmotor)` of `ParseMotionState`: digits other than 0..3 hit
no case and leave the stored motor state unchanged. -/
def applyMotor (st : TelState) (m : Nat) : TelState :=
  match m with
  | 0 => { st with motors := .motorsOff }
  | 1 => { st with motors := .motorsDecOnly }
  | 2 => { st with motors := .motorsRaOnly }
  | 3 => { st with motors := .motorsOn }
  | _ => st

/-- The `switch(lmode)` of `ParseMotionState`: mode 0 ("no tracking at all")
does nothing, modes above 3 hit no case. -/
def applyTrack (st : TelState) (t : Nat) : TelState :=
  match t with
  | 0 => st
  | 1 => { st with track := .trackLunar }
  | 2 => { st with track := .trackSolar }
  | 3 => { st with track := .trackSidereal }
  | _ => st

/-- The `switch(lslew)` of `ParseMotionState`. -/
def applySlew (st : TelState) (s : Nat) : TelState :=
  match s with
  | 0 => { st with slew := .slewGuide }
  | 1 => { st with slew := .slewCentering }
  | 2 => { st with slew := .slewFind }
  | 3 => { st with slew := .slewMax }
  | _ => st

/-- Effect of a decoded telegram on the shared state: the three switches of
`ParseMotionState`, in source order. -/
def applyTG (st : TelState) (tg : Nat × Nat × Nat) : TelState :=
  applySlew (applyTrack (applyMotor st tg.1) tg.2.1) tg.2.2

/-- `LX200StarGo::ParseMotionState`: if the frame matches the telegram format,
update the three shared fields and report `true`; otherwise leave the state
unchanged and report `false`. -/
def ParseMotionState (st : TelState) (frame : String) : TelState × Bool :=
  match parseZ1 frame with
  | some tg => (applyTG st tg, true)
  | none => (st, false)

/-- Application of one frame to the shared state, discarding the match flag. -/
def applyFrame (st : TelState) (frame : String) : TelState :=
  (ParseMotionState st frame).1

/-! ## The protocol engine: `LX200StarGo::sendQuery` -/

/-- The pre-transmit drain loop of `sendQuery`
(`while (receive(lresponse, &lbytes, '#', 0)) { ParseMotionState(lresponse); }`):
every buffered frame is read with zero wait and fed to `ParseMotionState`;
the loop ends only when `receive` finds no further frame. -/
def drain (st : TelState) : List String → TelState
  | [] => st
  | f :: rest => drain (applyFrame st f) rest

/-- Drain loop as the specification describes it: apply telegrams, but stop
at the first frame that is not a telegram, leaving it (and everything after
it) unread.  Kept separate from `drain`, which is the behaviour of the source,
to compare the two. -/
def drainSpec (st : TelState) : List String → TelState × List String
  | [] => (st, [])
  | f :: rest =>
    match parseZ1 f with
    | some tg => drainSpec (applyTG st tg) rest
    | none => (st, f :: rest)

/-- Result of the post-transmit read loop of `sendQuery`. -/
structure ReplyResult where
  state : TelState
  response : String
  found : Bool
  waits : List Nat
deriving DecidableEq, Repr

/-- The post-transmit read loop of `sendQuery`.  Each received frame is fed
to `ParseMotionState`; a frame that is not a telegram is captured as the
response if it is the first such frame, and from then on the remaining
reads use a zero wait (`lwait = 0`).  `waits` records the wait passed to
every `receive` call, including the final one that finds no frame. -/
def replyLoop (st : TelState) (resp : String) (found : Bool) (lwait : Nat) :
    List String → ReplyResult
  | [] => ⟨st, resp, found, [lwait]⟩
  | f :: rest =>
    let p := ParseMotionState st f
    let r :=
      if p.2 then
        replyLoop p.1 resp found lwait rest
      else
        replyLoop p.1 (if found then resp else f) true 0 rest
    { r with waits := lwait :: r.waits }

/-- Result of one `sendQuery` round trip. -/
structure SendResult where
  ok : Bool
  response : String
  state : TelState
  waits : List Nat
deriving DecidableEq, Repr

/-- `LX200StarGo::sendQuery` over the list-of-frames transport model:
drain the buffered frames, transmit (outcome `transmitOk`), then run the
read loop with the wait budget of the caller.  A transmit failure returns
`false`; otherwise the call returns `true`, with `response` left empty
when no genuine (non-telegram) reply was received. -/
def sendQuery (st : TelState) (pre post : List String) (transmitOk : Bool)
    (wait : Nat) : SendResult :=
  let st1 := drain st pre
  if transmitOk then
    let r := replyLoop st1 "" false wait post
    { ok := true, response := r.response, state := r.state, waits := r.waits }
  else
    { ok := false, response := "", state := st1, waits := [] }

/-! ## Telegram frames built from digit fields -/

/-- A telegram frame `:Z1` followed by three digit characters. -/
def mkZ1 (m t s : Nat) : String :=
  String.mk [':', 'Z', '1', Char.ofNat (48 + m), Char.ofNat (48 + t), Char.ofNat (48 + s)]

/-- The motor-state selected by the first field of a telegram (fields 0..3). -/
def motorOf : Nat → MotorsState
  | 0 => .motorsOff
  | 1 => .motorsDecOnly
  | 2 => .motorsRaOnly
  | _ => .motorsOn

/-- The slew rate selected by the third field of a telegram (fields 0..3). -/
def slewOf : Nat → SlewRate
  | 0 => .slewGuide
  | 1 => .slewCentering
  | 2 => .slewFind
  | _ => .slewMax

/-! ## Numeric formatting (the sprintf formats used by the driver) -/

/-- Left-pad a digit string with zeros to the given width. -/
def padZeros (w : Nat) (s : String) : String :=
  String.mk (List.replicate (w - s.length) '0') ++ s

/-- C `%0<w>d` on an `int`: zero-padded to total width `w`, a minus sign
counting toward the width (`-159` under `%04d` prints `-159`, `-5`
prints `-005`). -/
def fmtIntZ (w : Nat) (n : ℤ) : String :=
  if n < 0 then "-" ++ padZeros (w - 1) (toString n.natAbs)
  else padZeros w (toString n.natAbs)

/-- C `%+0<w>i`: an explicit sign always printed, zero-padded to total
width `w` with the sign counting toward the width. -/
def fmtSignedZ (w : Nat) (n : ℤ) : String :=
  (if n < 0 then "-" else "+") ++ padZeros (w - 1) (toString n.natAbs)

/-! ## The `:X590#` coordinate decoder: `LX200StarGo::getEqCoordinates`

The reply is parsed with `sscanf(response, "RD%08lf%08lf", &r, &d)`.  A
C `%8lf` conversion skips whitespace, then consumes at most 8 characters
forming an optionally signed fixed-point number.  (Exponent notation,
which scanf would also accept, is not modelled: no StarGo reply and no
claim exercises it.) -/

/-- Read a run of decimal digits limited by the remaining field width;
returns the accumulated value, the number of digits read, and the rest. -/
def scanDigitsAux (acc : Nat) (count : Nat) : Nat → List Char → Nat × Nat × List Char
  | 0, cs => (acc, count, cs)
  | _ + 1, [] => (acc, count, [])
  | b + 1, c :: rest =>
    if c.isDigit then scanDigitsAux (acc * 10 + (c.toNat - 48)) (count + 1) b rest
    else (acc, count, c :: rest)

/-- The unsigned part of a `%<w>lf` conversion: digits, optionally a
decimal point and more digits, requiring at least one digit in total. -/
def scanfUnsigned (budget : Nat) (cs : List Char) : Option (ℚ × List Char) :=
  let ip := scanDigitsAux 0 0 budget cs
  let rem := budget - ip.2.1
  match rem, ip.2.2 with
  | r + 1, '.' :: rest =>
    let fp := scanDigitsAux 0 0 r rest
    if ip.2.1 + fp.2.1 = 0 then none
    else some ((ip.1 : ℚ) + (fp.1 : ℚ) / (10 : ℚ) ^ fp.2.1, fp.2.2)
  | _, rest => if ip.2.1 = 0 then none else some ((ip.1 : ℚ), rest)

/-- A `%<w>lf` conversion: skip whitespace, optional sign, then the
unsigned number within the remaining field width. -/
def scanfFloat (w : Nat) (cs0 : List Char) : Option (ℚ × List Char) :=
  match cs0.dropWhile cIsSpace with
  | '-' :: rest => (scanfUnsigned (w - 1) rest).map (fun vr => (-vr.1, vr.2))
  | '+' :: rest => scanfUnsigned (w - 1) rest
  | cs => scanfUnsigned w cs

/-- `LX200StarGo::getEqCoordinates` applied to the `:X590#` reply string:
both `%08lf` fields must convert (`sscanf` result `< 2` fails); on success
RA is the first number divided by 1,000,000 and Dec the second divided by
100,000. -/
def getEqCoordinates (response : String) : Option (ℚ × ℚ) :=
  match response.toList with
  | 'R' :: 'D' :: rest =>
    match scanfFloat 8 rest with
    | none => none
    | some (r, rest2) =>
      match scanfFloat 8 rest2 with
      | none => none
      | some (d, _) => some (r / 1000000, d / 100000)
  | _ => none

/-! ## Tracking adjustment: `LX200StarGo::setTrackingAdjustment` -/

/-- C truncation of a rational toward zero, the effect of
`static_cast<int>` on a (here exactly represented) `double`. -/
def truncQ (q : ℚ) : ℤ :=
  if 0 ≤ q then ⌊q⌋ else -⌊-q⌋

/-- `LX200StarGo::setTrackingAdjustment`: reject adjustments above `5.0`
or below `-5.0` before any command is built; otherwise return the wire
command `:X41%+04i#` with the parameter `(int)(adjustRA * 100)`.  The
transport send (a no-reply `sendQuery`) is abstracted away: `some cmd`
means `cmd` is handed to the transport, `none` means nothing is sent. -/
def setTrackingAdjustment (adjustRA : ℚ) : Option String :=
  if adjustRA > 5 then none
  else if adjustRA < -5 then none
  else some (":X41" ++ fmtSignedZ 4 (truncQ (adjustRA * 100)) ++ "#")

/-! ## Site longitude: `LX200StarGo::setSiteLongitude` -/

/-- Round to the nearest integer, the effect of C `rint` under the default
rounding mode on the magnitudes arising here (ties do not occur in any
statement below). -/
def qround (q : ℚ) : ℤ := ⌊q + 1 / 2⌋

/-- Modelled from the spec: the sexagesimal decomposition of the libindi function
`getSexComponents`, which is not part of this repository.  Per the spec
("signed degree/minute/second sexagesimal"), the absolute value is split
into degree, minute and rounded second with carry handling, and all three
components carry the sign of a negative input. -/
def getSexComponents (value : ℚ) : ℤ × ℤ × ℤ :=
  let a := |value|
  let d := ⌊a⌋
  let m := ⌊(a - d) * 60⌋
  let s1 := qround (((a - d) * 60 - m) * 60)
  let m1 := if s1 = 60 then m + 1 else m
  let s2 := if s1 = 60 then 0 else s1
  let d1 := if m1 = 60 then d + 1 else d
  let m2 := if m1 = 60 then 0 else m1
  if value < 0 then (-d1, -m2, -s2) else (d1, m2, s2)

/-- The two conditional wrap adjustments at the top of `setSiteLongitude`:
subtract 360 if the longitude exceeds 180, then add 360 if the (possibly
adjusted) value is below -180. -/
def normalizeLong (longitude : ℚ) : ℚ :=
  let l1 := if longitude > 180 then longitude - 360 else longitude
  if l1 < -180 then 360 + l1 else l1

/-- The signed-degree encoding `":Sg+%03d*%02d:%02d#"` used for
decompositions with no negative component. -/
def sgSigned (c : ℤ × ℤ × ℤ) : String :=
  ":Sg+" ++ fmtIntZ 3 c.1 ++ "*" ++ fmtIntZ 2 c.2.1 ++ ":" ++ fmtIntZ 2 c.2.2 ++ "#"

/-- The unsigned-4-digit-degree encoding `":Sg%04d*%02u:%02u#"` used when
some component is negative, with absolute minute and second. -/
def sgUnsigned (c : ℤ × ℤ × ℤ) : String :=
  ":Sg" ++ fmtIntZ 4 c.1 ++ "*" ++ padZeros 2 (toString c.2.1.natAbs) ++ ":" ++
    padZeros 2 (toString c.2.2.natAbs) ++ "#"

/-- `LX200StarGo::setSiteLongitude`: normalize, decompose via
`getSexComponents`, then pick the encoding by the condition
`d < 0 || m < 0 || s < 0` of the source. -/
def setSiteLongitude (longitude : ℚ) : String :=
  let l := normalizeLong longitude
  let c := getSexComponents l
  if c.1 < 0 ∨ c.2.1 < 0 ∨ c.2.2 < 0 then sgUnsigned c else sgSigned c

/-! ## Published mount status and the poll cycle -/

/-- `INDI::Telescope::TelescopeStatus` values used by the driver. -/
inductive TelescopeStatus
  | scopeIdle
  | scopeSlewing
  | scopeTracking
  | scopeParking
  | scopeParked
deriving DecidableEq, Repr

/-- Published pier side, `INDI::Telescope::TelescopePierSide`. -/
inductive PierSide
  | pierUnknown
  | pierEast
  | pierWest
deriving DecidableEq, Repr

/-- Host property states (`IPState`) as far as the driver writes them. -/
inductive IPState
  | ipsIdle
  | ipsOk
  | ipsBusy
  | ipsAlert
deriving DecidableEq, Repr

/-- The published mount status touched by `ReadScopeStatus`: track state,
parked flag, goto-home property state, tracking-adjustment number and its
property state, current RA/Dec, and pier side. -/
structure ScopeState where
  trackState : TelescopeStatus
  parked : Bool
  gotoHomeStatus : IPState
  trackAdjValue : ℚ
  trackAdjStatus : IPState
  ra : ℚ
  dec : ℚ
  pierSide : PierSide
deriving DecidableEq, Repr

/-- Modelled from the spec: `INDI::Telescope::SetParked` is host-framework
code outside this repository; for the core it is the publication of the
parked state ("report this value"). -/
def SetParked (isparked : Bool) (s : ScopeState) : ScopeState :=
  { s with parked := isparked }

/-- The `switch (answer)` of `syncSideOfPier`: `X` publishes unknown, `W`
publishes EAST, `E` publishes WEST, anything else changes nothing. -/
def applyPierChar (c : Char) (s : ScopeState) : ScopeState :=
  if c = 'X' then { s with pierSide := .pierUnknown }
  else if c = 'W' then { s with pierSide := .pierEast }
  else if c = 'E' then { s with pierSide := .pierWest }
  else s

/-- `LX200StarGo::syncSideOfPier` given the reply to `:X39#` (`none`
models a failed `sendQuery`).  The reply must match `sscanf(.., "P%c")`:
a first character `P` followed by at least one more character.  (In C an
empty reply would leave `answer` uninitialized — undefined behaviour —
modelled here as the parse-failure return.) -/
def syncSideOfPier (s : ScopeState) (reply : Option String) : Bool × ScopeState :=
  match reply with
  | none => (false, s)
  | some resp =>
    match resp.toList with
    | 'P' :: c :: _ => (true, applyPierChar c s)
    | _ => (false, s)

/-- Outcomes of the five queries one poll cycle issues, in order: the
motor-status read and its one retry (`:X34#`, the retry consulted only
when the first read fails), the park/home status character (`:X38#`),
the tracking adjustment (`:X42#`), the RA/Dec pair (`:X590#`), and the
raw pier-side reply (`:X39#`). -/
structure PollInputs where
  motor1 : Option (Nat × Nat)
  motor2 : Option (Nat × Nat)
  parkHome : Option Char
  trackAdj : Option ℚ
  eq : Option (ℚ × ℚ)
  pier : Option String
deriving DecidableEq, Repr

/-- `LX200StarGo::ReadScopeStatus` for a connected, non-simulated mount
with the Aux1 focuser inactive.  Mirrors the source order: motor status
(with one retry), park/home status, park/unpark handling and track-state
evaluation, tracking-adjustment publication (always published, `OK` with
the fresh value or `ALERT`), then the RA/Dec fetch — whose failure aborts
the cycle — and finally pier side. -/
def ReadScopeStatus (s : ScopeState) (i : PollInputs) : Bool × ScopeState :=
  match (match i.motor1 with | some v => some v | none => i.motor2) with
  | none => (false, s)
  | some xy =>
    match i.parkHome with
    | none => (false, s)
    | some ph =>
      let r1 : TelescopeStatus × ScopeState :=
        if ph = '2' then
          (.scopeParked, if s.trackState ≠ .scopeParked then SetParked true s else s)
        else
          let s1 := if s.trackState = .scopeParked then SetParked false s else s
          if xy.1 = 0 ∧ xy.2 = 0 then
            (.scopeIdle,
              if s1.gotoHomeStatus = .ipsBusy then { s1 with gotoHomeStatus := .ipsOk }
              else s1)
          else if xy.1 = 1 ∧ xy.2 = 0 then (.scopeTracking, s1)
          else (s.trackState, s1)
      let s3 :=
        match i.trackAdj with
        | some v => { r1.2 with trackAdjValue := v, trackAdjStatus := .ipsOk }
        | none => { r1.2 with trackAdjStatus := .ipsAlert }
      match i.eq with
      | none => (false, s3)
      | some rd =>
        let s4 := { s3 with ra := rd.1, dec := rd.2, trackState := r1.1 }
        let r2 := syncSideOfPier s4 i.pier
        if r2.1 then (true, r2.2) else (false, r2.2)

/-! ## Guide pulses: `GuideNorth` / `GuideSouth` / `GuideEast` / `GuideWest` -/

/-- Guide directions (`LX200_NORTH` etc. in the source). -/
inductive GuideDirection
  | north
  | south
  | east
  | west
deriving DecidableEq, Repr

/-- Commands a guide call can issue: a wire command transmitted by this
driver, or a delegated framework motion call (`MoveNS` / `MoveWE`, which
transmit motion start/stop commands themselves). -/
inductive MountCmd
  | wire (cmd : String)
  | moveNS (dirIndex : Nat) (stop : Bool)
  | moveWE (dirIndex : Nat) (stop : Bool)
deriving DecidableEq, Repr

/-- The driver state a guide call reads and writes.  `movementNSBusy` /
`movementWEBusy` model `MovementNSSP.s == IPS_BUSY` / `MovementWESP.s ==
IPS_BUSY`; `dirIndexNS` / `dirIndexWE` the index of the switch currently
on; `guideNSTimer` / `guideWETimer` whether a guide timer is outstanding
(`GuideNSTID != 0`).  UI-only publications (`SlewRateSP.s` alerts and the
movement switch display) are not tracked. -/
structure GuideState where
  usePulseCommand : Bool
  movementNSBusy : Bool
  movementWEBusy : Bool
  dirIndexNS : Nat
  dirIndexWE : Nat
  trackState : TelescopeStatus
  guideNSTimer : Bool
  guideWETimer : Bool
  guideDirNS : Option GuideDirection
  guideDirWE : Option GuideDirection
  slewRateGuide : Bool
deriving DecidableEq, Repr

/-- The direction letter of a pulse command `:Mg{n,s,e,w}`. -/
def pulseChar : GuideDirection → String
  | .north => "n"
  | .south => "s"
  | .east => "e"
  | .west => "w"

/-- `LX200StarGo::SendPulseCmd`: while the mount reports `SLEWING` or
`PARKING` the pulse is ignored (no command); otherwise the timed pulse
command `:Mg{dir}%04u#` is transmitted. -/
def SendPulseCmd (trackState : TelescopeStatus) (dir : GuideDirection) (ms : Nat) :
    List String :=
  if trackState = .scopeSlewing ∨ trackState = .scopeParking then []
  else [":Mg" ++ pulseChar dir ++ padZeros 4 (toString ms) ++ "#"]

/-- `LX200StarGo::GuideNorth`.  `slewOk` is the outcome of the
`setSlewMode(LX200_SLEW_GUIDE)` transmission used in discrete mode. -/
def GuideNorth (s : GuideState) (ms : Nat) (slewOk : Bool) :
    IPState × GuideState × List MountCmd :=
  if s.usePulseCommand && (s.movementNSBusy || s.movementWEBusy) then (.ipsAlert, s, [])
  else
    let stopEff : List MountCmd :=
      if s.movementNSBusy then [.moveNS (if s.dirIndexNS = 0 then 0 else 1) true] else []
    let s1 := { s with guideNSTimer := false }
    if s.usePulseCommand then
      (.ipsBusy,
        { s1 with slewRateGuide := true, guideDirNS := some .north, guideNSTimer := true },
        stopEff ++ (SendPulseCmd s.trackState .north ms).map .wire)
    else if slewOk then
      (.ipsBusy,
        { s1 with slewRateGuide := true, guideDirNS := some .north, guideNSTimer := true },
        stopEff ++ [.wire ":RG#", .moveNS 0 false])
    else (.ipsAlert, s1, stopEff ++ [.wire ":RG#"])

/-- `LX200StarGo::GuideSouth`, same structure as `GuideNorth` with the
south direction. -/
def GuideSouth (s : GuideState) (ms : Nat) (slewOk : Bool) :
    IPState × GuideState × List MountCmd :=
  if s.usePulseCommand && (s.movementNSBusy || s.movementWEBusy) then (.ipsAlert, s, [])
  else
    let stopEff : List MountCmd :=
      if s.movementNSBusy then [.moveNS (if s.dirIndexNS = 0 then 0 else 1) true] else []
    let s1 := { s with guideNSTimer := false }
    if s.usePulseCommand then
      (.ipsBusy,
        { s1 with slewRateGuide := true, guideDirNS := some .south, guideNSTimer := true },
        stopEff ++ (SendPulseCmd s.trackState .south ms).map .wire)
    else if slewOk then
      (.ipsBusy,
        { s1 with slewRateGuide := true, guideDirNS := some .south, guideNSTimer := true },
        stopEff ++ [.wire ":RG#", .moveNS 1 false])
    else (.ipsAlert, s1, stopEff ++ [.wire ":RG#"])

/-- `LX200StarGo::GuideEast`: the same mutual-exclusion check, then the
west/east movement state takes the role the north/south state has in
`GuideNorth`. -/
def GuideEast (s : GuideState) (ms : Nat) (slewOk : Bool) :
    IPState × GuideState × List MountCmd :=
  if s.usePulseCommand && (s.movementNSBusy || s.movementWEBusy) then (.ipsAlert, s, [])
  else
    let stopEff : List MountCmd :=
      if s.movementWEBusy then [.moveWE (if s.dirIndexWE = 0 then 0 else 1) true] else []
    let s1 := { s with guideWETimer := false }
    if s.usePulseCommand then
      (.ipsBusy,
        { s1 with slewRateGuide := true, guideDirWE := some .east, guideWETimer := true },
        stopEff ++ (SendPulseCmd s.trackState .east ms).map .wire)
    else if slewOk then
      (.ipsBusy,
        { s1 with slewRateGuide := true, guideDirWE := some .east, guideWETimer := true },
        stopEff ++ [.wire ":RG#", .moveWE 1 false])
    else (.ipsAlert, s1, stopEff ++ [.wire ":RG#"])

/-- `LX200StarGo::GuideWest`, same structure as `GuideEast` with the
west direction. -/
def GuideWest (s : GuideState) (ms : Nat) (slewOk : Bool) :
    IPState × GuideState × List MountCmd :=
  if s.usePulseCommand && (s.movementNSBusy || s.movementWEBusy) then (.ipsAlert, s, [])
  else
    let stopEff : List MountCmd :=
      if s.movementWEBusy then [.moveWE (if s.dirIndexWE = 0 then 0 else 1) true] else []
    let s1 := { s with guideWETimer := false }
    if s.usePulseCommand then
      (.ipsBusy,
        { s1 with slewRateGuide := true, guideDirWE := some .west, guideWETimer := true },
        stopEff ++ (SendPulseCmd s.trackState .west ms).map .wire)
    else if slewOk then
      (.ipsBusy,
        { s1 with slewRateGuide := true, guideDirWE := some .west, guideWETimer := true },
        stopEff ++ [.wire ":RG#", .moveWE 0 false])
    else (.ipsAlert, s1, stopEff ++ [.wire ":RG#"])

end StarGo

namespace StarGo

/-! ## Protocol-engine lemmas -/

/-- A frame that is not a telegram leaves the shared state unchanged. -/
theorem ParseMotionState_not_telegram (st : TelState) (f : String)
    (h : isTelegram f = false) : ParseMotionState st f = (st, false) := by
  unfold ParseMotionState
  unfold isTelegram at h
  cases hp : parseZ1 f with
  | none => rfl
  | some tg => rw [hp] at h; simp [Option.isSome] at h

/-- The effect of a telegram frame on the state is `applyTG` of its decoded fields. -/
theorem ParseMotionState_telegram (st : TelState) (f : String) (tg : Nat × Nat × Nat)
    (h : parseZ1 f = some tg) : ParseMotionState st f = (applyTG st tg, true) := by
  unfold ParseMotionState
  rw [h]

/-- Once a genuine reply has been captured (`found = true`, zero wait), the
read loop only applies the remaining frames and keeps reading with zero
wait until the frame list is exhausted; the captured response survives. -/
theorem replyLoop_found_zero (fs : List String) (st : TelState) (resp : String) :
    replyLoop st resp true 0 fs =
      ⟨fs.foldl applyFrame st, resp, true, List.replicate (fs.length + 1) 0⟩ := by
  induction fs generalizing st with
  | nil => rfl
  | cons f rest ih =>
    unfold replyLoop
    by_cases h2 : (ParseMotionState st f).2
    · simp only [h2, if_true, ih]
      simp [applyFrame, List.replicate_succ]
    · simp only [h2, if_false, Bool.false_eq_true, if_true, ih]
      simp [applyFrame, List.replicate_succ]

/-- Reading one telegram frame applies it and continues with the wait
unchanged, recording the wait used for this read. -/
theorem replyLoop_cons_of_telegram (t : String) (fs : List String) (st : TelState)
    (resp : String) (found : Bool) (lwait : Nat) (h : isTelegram t = true) :
    replyLoop st resp found lwait (t :: fs) =
      { replyLoop (applyFrame st t) resp found lwait fs with
        waits := lwait :: (replyLoop (applyFrame st t) resp found lwait fs).waits } := by
  obtain ⟨tg, htg⟩ := Option.isSome_iff_exists.mp h
  have hstep : ParseMotionState st t = (applyTG st tg, true) :=
    ParseMotionState_telegram st t tg htg
  have hA : applyFrame st t = applyTG st tg := by simp [applyFrame, hstep]
  rw [hA]
  conv_lhs => rw [replyLoop.eq_def]
  simp only [hstep, if_true]

/-- A run of telegram frames at the head of the read loop is applied to the
state one frame at a time, each read using the current wait unchanged. -/
theorem replyLoop_telegram_run (ts : List String) (rest : List String)
    (st : TelState) (resp : String) (found : Bool) (lwait : Nat)
    (hts : ∀ f ∈ ts, isTelegram f = true) :
    replyLoop st resp found lwait (ts ++ rest) =
      { replyLoop (ts.foldl applyFrame st) resp found lwait rest with
        waits := List.replicate ts.length lwait ++
          (replyLoop (ts.foldl applyFrame st) resp found lwait rest).waits } := by
  induction ts generalizing st with
  | nil => simp
  | cons t ts ih =>
    have ht : isTelegram t = true := hts t (by simp)
    rw [List.cons_append,
      replyLoop_cons_of_telegram t (ts ++ rest) st resp found lwait ht,
      ih (applyFrame st t) (fun f hf => hts f (by simp [hf]))]
    simp [List.replicate_succ, List.foldl_cons]

/-- A read phase consisting solely of telegrams never produces a response:
all frames are applied, the response stays as it was. -/
theorem replyLoop_all_telegrams (ts : List String) (st : TelState) (resp : String)
    (found : Bool) (lwait : Nat) (hts : ∀ f ∈ ts, isTelegram f = true) :
    replyLoop st resp found lwait ts =
      ⟨ts.foldl applyFrame st, resp, found, List.replicate (ts.length + 1) lwait⟩ := by
  have h := replyLoop_telegram_run ts [] st resp found lwait hts
  rw [List.append_nil] at h
  rw [h]
  unfold replyLoop
  have hw : List.replicate ts.length lwait ++ [lwait] =
      List.replicate (ts.length + 1) lwait := (List.replicate_succ' ts.length lwait).symm
  simp [hw]

end StarGo

namespace StarGo

/-- Reading a non-telegram frame while no reply has been captured yet
captures it as the response and drops the wait to zero. -/
theorem replyLoop_cons_of_reply (r : String) (fs : List String) (st : TelState)
    (resp : String) (lwait : Nat) (h : isTelegram r = false) :
    replyLoop st resp false lwait (r :: fs) =
      { replyLoop st r true 0 fs with
        waits := lwait :: (replyLoop st r true 0 fs).waits } := by
  have hstep : ParseMotionState st r = (st, false) :=
    ParseMotionState_not_telegram st r h
  conv_lhs => rw [replyLoop.eq_def]
  simp [hstep]

/-- C1: the specification demands `Fail(Timeout)` when the command is
transmitted but only telegrams (or nothing at all) come back.  The code
instead returns success: with a successfully transmitted command and an
empty post-transmit stream, `sendQuery` reports `true` (and an empty
response), refuting the claim. -/
theorem sendQuery_timeout_claim_cex :
    (sendQuery ⟨.motorsOff, .trackSidereal, .slewMax⟩ [] [] true 5).ok = true ∧
    (sendQuery ⟨.motorsOff, .trackSidereal, .slewMax⟩ [] [] true 5).response = "" := by
  exact ⟨rfl, rfl⟩

/-- C1 (amended): for every call of `sendQuery` in which the command is
transmitted successfully but, within the wait budget, only status telegrams
(or nothing) are received, the call still returns success (`true`) with an
empty response string; no timeout failure is reported. -/
theorem sendQuery_only_telegrams_returns_success (st : TelState)
    (pre post : List String) (w : Nat) (hp : ∀ f ∈ post, isTelegram f = true) :
    (sendQuery st pre post true w).ok = true ∧
    (sendQuery st pre post true w).response = "" := by
  have h := replyLoop_all_telegrams post (drain st pre) "" false w hp
  unfold sendQuery
  simp [h]

/-- Witness for the amended C1 theorem at a concrete input: one telegram
arrives after the transmit, the call succeeds with an empty response. -/
theorem sendQuery_only_telegrams_returns_success_witness :
    (sendQuery ⟨.motorsOff, .trackSidereal, .slewMax⟩ [] [":Z1000"] true 5).ok = true ∧
    (sendQuery ⟨.motorsOff, .trackSidereal, .slewMax⟩ [] [":Z1000"] true 5).response = "" :=
  sendQuery_only_telegrams_returns_success ⟨.motorsOff, .trackSidereal, .slewMax⟩
    [] [":Z1000"] 5 (by decide)

/-- C3: the specification says the drain phase stops at the first frame
that is not a telegram.  The drain loop of the code instead consumes every
buffered frame: with a non-telegram frame buffered ahead of a telegram,
the telegram is still read and applied, so the drain result differs from
the specified stop-at-first-reply behaviour. -/
theorem drain_stops_at_reply_cex :
    drain ⟨.motorsOff, .trackSidereal, .slewMax⟩ ["p0", ":Z1110"] ≠
      (drainSpec ⟨.motorsOff, .trackSidereal, .slewMax⟩ ["p0", ":Z1110"]).1 := by
  decide

/-- C3 (amended): the pre-transmit drain phase of `sendQuery` reads
terminator-delimited frames with zero wait until an empty read, applies
every frame that parses as a status telegram to the shared mount state,
and discards every frame whether or not it is a telegram; it does not
stop at the first non-telegram frame. -/
theorem drain_consumes_every_frame (st : TelState) (frames : List String) :
    drain st frames = (frames.filterMap parseZ1).foldl applyTG st := by
  induction frames generalizing st with
  | nil => rfl
  | cons f rest ih =>
    unfold drain
    cases hp : parseZ1 f with
    | some tg =>
      rw [ih]
      simp [List.filterMap_cons, hp, applyFrame, ParseMotionState]
    | none =>
      rw [ih]
      simp [List.filterMap_cons, hp, applyFrame, ParseMotionState]

/-- C5: after the command is transmitted, a transport stream of N status
telegrams followed by one genuine (non-telegram) reply makes `sendQuery`
return exactly that reply; the N telegrams are applied to the shared state
exactly once each (in order), and every read after the reply is captured
uses a zero wait, any further frames being discarded rather than returned. -/
theorem sendQuery_returns_first_genuine_reply (st : TelState) (ts : List String)
    (r : String) (rest : List String) (w : Nat)
    (hts : ∀ f ∈ ts, isTelegram f = true) (hr : isTelegram r = false) :
    (sendQuery st [] (ts ++ r :: rest) true w).ok = true ∧
    (sendQuery st [] (ts ++ r :: rest) true w).response = r ∧
    (sendQuery st [] (ts ++ r :: rest) true w).waits =
      List.replicate (ts.length + 1) w ++ List.replicate (rest.length + 1) 0 ∧
    (rest = [] → (sendQuery st [] (ts ++ r :: rest) true w).state =
      ts.foldl applyFrame st) := by
  have hall : replyLoop st "" false w (ts ++ r :: rest) =
      ⟨rest.foldl applyFrame (ts.foldl applyFrame st), r, true,
        List.replicate ts.length w ++ (w :: List.replicate (rest.length + 1) 0)⟩ := by
    rw [replyLoop_telegram_run ts (r :: rest) st "" false w hts,
      replyLoop_cons_of_reply r rest (ts.foldl applyFrame st) "" w hr,
      replyLoop_found_zero rest (ts.foldl applyFrame st) r]
  have hsq : sendQuery st [] (ts ++ r :: rest) true w =
      { ok := true, response := r,
        state := rest.foldl applyFrame (ts.foldl applyFrame st),
        waits := List.replicate ts.length w ++ (w :: List.replicate (rest.length + 1) 0) } := by
    unfold sendQuery
    simp only [drain, hall, if_true]
  rw [hsq]
  refine ⟨rfl, rfl, ?_, ?_⟩
  · show List.replicate ts.length w ++ (w :: List.replicate (rest.length + 1) 0) =
      List.replicate (ts.length + 1) w ++ List.replicate (rest.length + 1) 0
    rw [List.replicate_succ' ts.length w, List.append_assoc]
    rfl
  · intro hrest
    subst hrest
    rfl

/-- Witness for the C5 theorem: one telegram, then the genuine reply `p0`,
with a wait budget of three seconds. -/
theorem sendQuery_returns_first_genuine_reply_witness :
    (sendQuery ⟨.motorsOff, .trackSidereal, .slewMax⟩ [] ([":Z1000"] ++ "p0" :: []) true 3).response = "p0" ∧
    (sendQuery ⟨.motorsOff, .trackSidereal, .slewMax⟩ [] ([":Z1000"] ++ "p0" :: []) true 3).waits =
      List.replicate 2 3 ++ List.replicate 1 0 :=
  ⟨(sendQuery_returns_first_genuine_reply ⟨.motorsOff, .trackSidereal, .slewMax⟩
      [":Z1000"] "p0" [] 3 (by decide) (by decide)).2.1,
   (sendQuery_returns_first_genuine_reply ⟨.motorsOff, .trackSidereal, .slewMax⟩
      [":Z1000"] "p0" [] 3 (by decide) (by decide)).2.2.1⟩

end StarGo

namespace StarGo

/-- C4: the specification says decoding the `:X590#` reply
`RD00123450-0050000` fails with a parse error because of the non-digit
inside the 16 characters after `RD`.  It does not: a C `%08lf` field
accepts a leading sign, so the second field consumes `-0050000` and the
decode succeeds, refuting the claim. -/
theorem getEqCoordinates_dash_cex :
    getEqCoordinates "RD00123450-0050000" ≠ none := by
  decide

/-- C4 (amended): decoding the `:X590#` coordinate reply
`RD00123450-0050000` succeeds, because the scanf `%08lf` field accepts an
optionally signed number: the two fields read `123450` and `-50000`, so
the result is RA `123450 / 1000000 = 0.12345` hours and Dec
`-50000 / 100000 = -0.5` degrees; `getEqCoordinates` fails only when
fewer than two numeric fields can be converted. -/
theorem getEqCoordinates_dash_parses :
    getEqCoordinates "RD00123450-0050000" =
      some ((123450 : ℚ) / 1000000, (-(50000 : ℚ)) / 100000) := by
  rfl

/-- C6: `setTrackingAdjustment` rejects any adjustment above `5.00` or
below `-5.00` without building (or sending) a command, while exactly
`5.00` and `-5.00` are accepted and encoded as the signed 4-character
zero-padded parts-per-10000 value (`value * 100`) in the `:X41` command. -/
theorem setTrackingAdjustment_range (q : ℚ) :
    ((5 < q ∨ q < -5) → setTrackingAdjustment q = none) ∧
    setTrackingAdjustment 5 = some ":X41+500#" ∧
    setTrackingAdjustment (-5) = some ":X41-500#" := by
  have hpos : truncQ ((5 : ℚ) * 100) = 500 := by norm_num [truncQ]
  have hneg : truncQ ((-5 : ℚ) * 100) = -500 := by norm_num [truncQ]
  refine ⟨?_, ?_, ?_⟩
  · intro h
    unfold setTrackingAdjustment
    rcases h with h | h
    · rw [if_pos h]
    · rw [if_neg (not_lt.mpr (by linarith)), if_pos h]
  · unfold setTrackingAdjustment
    rw [if_neg (by norm_num), if_neg (by norm_num), hpos]
    rfl
  · unfold setTrackingAdjustment
    rw [if_neg (by norm_num), if_neg (by norm_num), hneg]
    rfl

/-- Witness for the C6 theorem: an adjustment of `6` percent is above the
maximum and is rejected before any command is built. -/
theorem setTrackingAdjustment_range_witness :
    setTrackingAdjustment 6 = none :=
  (setTrackingAdjustment_range 6).1 (Or.inl (by decide))

end StarGo

namespace StarGo

/-- Rounding to the nearest integer preserves nonnegativity. -/
theorem qround_nonneg (x : ℚ) (hx : 0 ≤ x) : 0 ≤ qround x := by
  unfold qround
  exact Int.floor_nonneg.mpr (by linarith)

/-- For a nonnegative value, all three sexagesimal components are
nonnegative. -/
theorem getSexComponents_nonneg (v : ℚ) (hv : 0 ≤ v) :
    0 ≤ (getSexComponents v).1 ∧ 0 ≤ (getSexComponents v).2.1 ∧
      0 ≤ (getSexComponents v).2.2 := by
  have h1 : (0 : ℤ) ≤ ⌊|v|⌋ := Int.floor_nonneg.mpr (abs_nonneg v)
  have h2 : (0 : ℤ) ≤ ⌊(|v| - ⌊|v|⌋) * 60⌋ :=
    Int.floor_nonneg.mpr (mul_nonneg (sub_nonneg.mpr (Int.floor_le _)) (by norm_num))
  have h3 : (0 : ℤ) ≤ qround (((|v| - ⌊|v|⌋) * 60 - ⌊(|v| - ⌊|v|⌋) * 60⌋) * 60) :=
    qround_nonneg _ (mul_nonneg (sub_nonneg.mpr (Int.floor_le _)) (by norm_num))
  unfold getSexComponents
  rw [if_neg (not_lt.mpr hv)]
  refine ⟨?_, ?_, ?_⟩ <;> split_ifs <;> dsimp only <;> omega

/-- For a negative value, all three sexagesimal components are
nonpositive (they are negations of the nonnegative decomposition of the
absolute value). -/
theorem getSexComponents_nonpos (v : ℚ) (hv : v < 0) :
    (getSexComponents v).1 ≤ 0 ∧ (getSexComponents v).2.1 ≤ 0 ∧
      (getSexComponents v).2.2 ≤ 0 := by
  have h1 : (0 : ℤ) ≤ ⌊|v|⌋ := Int.floor_nonneg.mpr (abs_nonneg v)
  have h2 : (0 : ℤ) ≤ ⌊(|v| - ⌊|v|⌋) * 60⌋ :=
    Int.floor_nonneg.mpr (mul_nonneg (sub_nonneg.mpr (Int.floor_le _)) (by norm_num))
  have h3 : (0 : ℤ) ≤ qround (((|v| - ⌊|v|⌋) * 60 - ⌊(|v| - ⌊|v|⌋) * 60⌋) * 60) :=
    qround_nonneg _ (mul_nonneg (sub_nonneg.mpr (Int.floor_le _)) (by norm_num))
  unfold getSexComponents
  rw [if_pos hv]
  refine ⟨?_, ?_, ?_⟩ <;> split_ifs <;> dsimp only <;> omega

/-- A negative value whose decomposition is not identically zero has a
strictly negative component, so the source branch condition `d < 0 || m < 0 || s < 0`
holds for it. -/
theorem getSexComponents_neg_branch (v : ℚ) (hv : v < 0)
    (hne : getSexComponents v ≠ (0, 0, 0)) :
    (getSexComponents v).1 < 0 ∨ (getSexComponents v).2.1 < 0 ∨
      (getSexComponents v).2.2 < 0 := by
  obtain ⟨ha, hb, hc⟩ := getSexComponents_nonpos v hv
  by_contra hno
  push_neg at hno
  obtain ⟨h1, h2, h3⟩ := hno
  apply hne
  have e1 : (getSexComponents v).1 = 0 := le_antisymm ha h1
  have e2 : (getSexComponents v).2.1 = 0 := le_antisymm hb h2
  have e3 : (getSexComponents v).2.2 = 0 := le_antisymm hc h3
  exact Prod.ext_iff.mpr ⟨e1, Prod.ext_iff.mpr ⟨e2, e3⟩⟩

end StarGo

namespace StarGo

/-- C7: the specification says a negative normalized longitude is encoded
with the unsigned 4-digit-degree form.  A negative longitude so small that
its degree/minute/second decomposition rounds to all-zero components
(here one ten-thousandth of a degree below zero, 0.36 arc-seconds) is
instead encoded with the signed form, because the source branches on the
signs of the decomposed components, not on the sign of the value. -/
theorem setSiteLongitude_sign_branch_cex :
    normalizeLong (-(1 / 10000)) < 0 ∧
    setSiteLongitude (-(1 / 10000)) ≠
      sgUnsigned (getSexComponents (normalizeLong (-(1 / 10000)))) := by
  have hneg : (-(1 / 10000) : ℚ) < 0 := by norm_num
  have h1 : normalizeLong (-(1 / 10000) : ℚ) = -(1 / 10000) := by
    norm_num [normalizeLong]
  have h2 : getSexComponents (-(1 / 10000) : ℚ) = (0, 0, 0) := by
    unfold getSexComponents
    rw [abs_of_neg hneg, if_pos hneg]
    norm_num [qround]
  have h3 : setSiteLongitude (-(1 / 10000) : ℚ) = sgSigned (0, 0, 0) := by
    simp only [setSiteLongitude, h1, h2]
    rw [if_neg (by decide)]
  refine ⟨?_, ?_⟩
  · rw [h1]
    exact hneg
  · rw [h3, h1, h2]
    decide

/-- C7 (amended): `setSiteLongitude` first applies the two wrap
adjustments (subtract 360 above 180, then add 360 below -180), which maps
every longitude of `(-540, 540]` other than exactly `-180` into
`(-180, 180]`; it then branches on the signs of the decomposed
degree/minute/second components: a non-negative normalized longitude is
encoded with the signed 3-digit form, and a negative one whose
decomposition has any nonzero component with the unsigned 4-digit form
using absolute minute and second (a negative longitude rounding to
0 deg 0 min 0 sec falls into the signed form). -/
theorem setSiteLongitude_normalize_and_branch (l : ℚ) :
    (-540 < l → l ≤ 540 → l ≠ -180 →
      -180 < normalizeLong l ∧ normalizeLong l ≤ 180) ∧
    (0 ≤ normalizeLong l →
      setSiteLongitude l = sgSigned (getSexComponents (normalizeLong l))) ∧
    (normalizeLong l < 0 → getSexComponents (normalizeLong l) ≠ (0, 0, 0) →
      setSiteLongitude l = sgUnsigned (getSexComponents (normalizeLong l))) := by
  refine ⟨?_, ?_, ?_⟩
  · intro h1 h2 h3
    simp only [normalizeLong]
    split_ifs with ha hb hb
    · constructor <;> linarith
    · constructor <;> linarith
    · constructor <;> linarith
    · refine ⟨?_, by linarith⟩
      exact (show (-180 : ℚ) ≤ l by linarith).lt_of_ne (Ne.symm h3)
  · intro h0
    obtain ⟨ha, hb, hc⟩ := getSexComponents_nonneg (normalizeLong l) h0
    have hcond : ¬((getSexComponents (normalizeLong l)).1 < 0 ∨
        (getSexComponents (normalizeLong l)).2.1 < 0 ∨
        (getSexComponents (normalizeLong l)).2.2 < 0) := by
      push_neg
      exact ⟨ha, hb, hc⟩
    simp only [setSiteLongitude]
    rw [if_neg hcond]
  · intro hneg hne
    have hcond := getSexComponents_neg_branch (normalizeLong l) hneg hne
    simp only [setSiteLongitude]
    rw [if_pos hcond]

/-- Witness for the C7 theorem: longitude 100 is already normalized and
takes the signed form; longitude -100 decomposes to (-100, 0, 0) and
takes the unsigned form. -/
theorem setSiteLongitude_normalize_and_branch_witness :
    (-180 < normalizeLong 100 ∧ normalizeLong 100 ≤ 180) ∧
    setSiteLongitude 100 = sgSigned (getSexComponents (normalizeLong 100)) ∧
    setSiteLongitude (-100) = sgUnsigned (getSexComponents (normalizeLong (-100))) :=
  ⟨(setSiteLongitude_normalize_and_branch 100).1 (by norm_num) (by norm_num) (by norm_num),
   (setSiteLongitude_normalize_and_branch 100).2.1 (by norm_num [normalizeLong]),
   (setSiteLongitude_normalize_and_branch (-100)).2.2 (by norm_num [normalizeLong])
     (by
       have hn : normalizeLong (-100 : ℚ) = -100 := by norm_num [normalizeLong]
       have hneg : (-100 : ℚ) < 0 := by norm_num
       have hg : getSexComponents (-100 : ℚ) = (-100, 0, 0) := by
         unfold getSexComponents
         rw [abs_of_neg hneg, if_pos hneg]
         norm_num [qround]
       rw [hn, hg]
       decide)⟩

end StarGo

namespace StarGo

/-- A `:Z1` frame with digit fields decodes to exactly those fields. -/
theorem parseZ1_mkZ1 (m t s : Nat) (hm : m ≤ 3) (ht : t ≤ 3) (hs : s ≤ 3) :
    parseZ1 (mkZ1 m t s) = some (m, t, s) := by
  interval_cases m <;> interval_cases t <;> interval_cases s <;> decide

/-- C8: a matching `:Z1` telegram updates motor state, tracking mode and
slew rate as three independent fields: the motor and slew fields are
always applied, a tracking-mode field of 0 leaves the previously stored
tracking mode unchanged, and a mode field of 1, 2 or 3 sets the lunar,
solar or sidereal tracking mode respectively. -/
theorem ParseMotionState_independent_fields (st : TelState) (m t s : Nat)
    (hm : m ≤ 3) (ht : t ≤ 3) (hs : s ≤ 3) :
    (ParseMotionState st (mkZ1 m t s)).2 = true ∧
    (ParseMotionState st (mkZ1 m t s)).1.motors = motorOf m ∧
    (ParseMotionState st (mkZ1 m t s)).1.slew = slewOf s ∧
    (t = 0 → (ParseMotionState st (mkZ1 m t s)).1.track = st.track) ∧
    (t = 1 → (ParseMotionState st (mkZ1 m t s)).1.track = .trackLunar) ∧
    (t = 2 → (ParseMotionState st (mkZ1 m t s)).1.track = .trackSolar) ∧
    (t = 3 → (ParseMotionState st (mkZ1 m t s)).1.track = .trackSidereal) := by
  have hp : ParseMotionState st (mkZ1 m t s) = (applyTG st (m, t, s), true) :=
    ParseMotionState_telegram st _ _ (parseZ1_mkZ1 m t s hm ht hs)
  rw [hp]
  interval_cases m <;> interval_cases t <;> interval_cases s <;>
    simp [applyTG, applyMotor, applyTrack, applySlew, motorOf, slewOf]

/-- Witness for the C8 theorem: the telegram `:Z1102` applied to a state
tracking at solar rate turns the DEC motor on and selects the FIND slew
rate while the mode field 0 leaves the solar tracking mode in place. -/
theorem ParseMotionState_independent_fields_witness :
    (ParseMotionState ⟨.motorsOff, .trackSolar, .slewMax⟩ (mkZ1 1 0 2)).2 = true ∧
    (ParseMotionState ⟨.motorsOff, .trackSolar, .slewMax⟩ (mkZ1 1 0 2)).1.motors = motorOf 1 ∧
    (ParseMotionState ⟨.motorsOff, .trackSolar, .slewMax⟩ (mkZ1 1 0 2)).1.track =
      TrackMode.trackSolar :=
  have h := ParseMotionState_independent_fields ⟨.motorsOff, .trackSolar, .slewMax⟩ 1 0 2
    (by decide) (by decide) (by decide)
  ⟨h.1, h.2.1, h.2.2.2.1 rfl⟩

/-- C10: `syncSideOfPier` publishes the inverse of the `:X39#` reply
letter: `PW` publishes pier side EAST, `PE` publishes WEST, `PX`
publishes UNKNOWN, and any other letter leaves the previously published
pier side unchanged; in all four cases the call reports success. -/
theorem syncSideOfPier_inverts_reply (s : ScopeState) (c : Char) :
    syncSideOfPier s (some (String.mk ['P', c])) =
      (true,
        if c = 'W' then { s with pierSide := .pierEast }
        else if c = 'E' then { s with pierSide := .pierWest }
        else if c = 'X' then { s with pierSide := .pierUnknown }
        else s) := by
  have h : syncSideOfPier s (some (String.mk ['P', c])) = (true, applyPierChar c s) := rfl
  rw [h]
  unfold applyPierChar
  by_cases hX : c = 'X' <;> by_cases hW : c = 'W' <;> by_cases hE : c = 'E' <;>
    simp [hX, hW, hE]

/-- C9: in pulse-guiding mode, while either axis has a discrete motion in
progress, each of the four guide entry points returns an alert
immediately, changes no state and issues no command. -/
theorem guide_rejected_while_moving (s : GuideState) (ms : Nat) (slewOk : Bool)
    (hp : s.usePulseCommand = true)
    (hb : s.movementNSBusy = true ∨ s.movementWEBusy = true) :
    GuideNorth s ms slewOk = (.ipsAlert, s, []) ∧
    GuideSouth s ms slewOk = (.ipsAlert, s, []) ∧
    GuideEast s ms slewOk = (.ipsAlert, s, []) ∧
    GuideWest s ms slewOk = (.ipsAlert, s, []) := by
  have hcond : (s.usePulseCommand && (s.movementNSBusy || s.movementWEBusy)) = true := by
    rcases hb with h | h <;> simp [hp, h]
  unfold GuideNorth GuideSouth GuideEast GuideWest
  simp [hcond]

/-- Witness for the C9 theorem: a pulse-mode state with a north/south
motion in progress rejects a 100 ms guide-north request. -/
theorem guide_rejected_while_moving_witness :
    GuideNorth ⟨true, true, false, 0, 0, .scopeTracking, false, false, none, none, false⟩
        100 true =
      (.ipsAlert, ⟨true, true, false, 0, 0, .scopeTracking, false, false, none, none, false⟩,
        []) :=
  (guide_rejected_while_moving
    ⟨true, true, false, 0, 0, .scopeTracking, false, false, none, none, false⟩
    100 true rfl (Or.inl rfl)).1

/-- C2: the specification says a failed RA/Dec fetch leaves every
previously published piece of mount status unchanged.  It does not: in a
cycle where the mount reports park status `2` and a fresh tracking
adjustment but the coordinate fetch fails, the cycle returns failure
after the parked state and the tracking-adjustment number have already
been updated. -/
theorem ReadScopeStatus_partial_update_cex :
    (ReadScopeStatus ⟨.scopeTracking, false, .ipsIdle, 0, .ipsOk, 1, 2, .pierEast⟩
        ⟨some (1, 0), none, some '2', some 3, none, none⟩).1 = false ∧
    (ReadScopeStatus ⟨.scopeTracking, false, .ipsIdle, 0, .ipsOk, 1, 2, .pierEast⟩
        ⟨some (1, 0), none, some '2', some 3, none, none⟩).2.parked ≠ false ∧
    (ReadScopeStatus ⟨.scopeTracking, false, .ipsIdle, 0, .ipsOk, 1, 2, .pierEast⟩
        ⟨some (1, 0), none, some '2', some 3, none, none⟩).2.trackAdjValue ≠ 0 := by
  refine ⟨rfl, by decide, by decide⟩

/-- C2 (amended): if the RA/Dec fetch of a poll cycle fails,
`ReadScopeStatus` returns failure and the published track state,
coordinates and pier side are left unchanged, but the parked state,
goto-home property and tracking-adjustment publications made earlier in
the same cycle have already taken effect. -/
theorem ReadScopeStatus_eq_failure_aborts (s : ScopeState) (i : PollInputs)
    (heq : i.eq = none) :
    (ReadScopeStatus s i).1 = false ∧
    (ReadScopeStatus s i).2.trackState = s.trackState ∧
    (ReadScopeStatus s i).2.ra = s.ra ∧
    (ReadScopeStatus s i).2.dec = s.dec ∧
    (ReadScopeStatus s i).2.pierSide = s.pierSide := by
  rcases i with ⟨m1, m2, ph, ta, eqv, pr⟩
  simp only at heq
  subst heq
  simp only [ReadScopeStatus]
  split
  · simp
  · split
    · simp
    · rcases ta with _ | v <;> simp [SetParked] <;> split_ifs <;> simp

/-- Witness for the amended C2 theorem: a cycle with good motor and park
replies but a failed coordinate fetch fails as a whole and keeps the
published pier side. -/
theorem ReadScopeStatus_eq_failure_aborts_witness :
    (ReadScopeStatus ⟨.scopeIdle, false, .ipsIdle, 0, .ipsOk, 1, 2, .pierWest⟩
        ⟨some (0, 0), none, some '0', some 3, none, none⟩).1 = false ∧
    (ReadScopeStatus ⟨.scopeIdle, false, .ipsIdle, 0, .ipsOk, 1, 2, .pierWest⟩
        ⟨some (0, 0), none, some '0', some 3, none, none⟩).2.pierSide =
      PierSide.pierWest :=
  have h := ReadScopeStatus_eq_failure_aborts
    ⟨.scopeIdle, false, .ipsIdle, 0, .ipsOk, 1, 2, .pierWest⟩
    ⟨some (0, 0), none, some '0', some 3, none, none⟩ rfl
  ⟨h.1, h.2.2.2.2⟩

end StarGo
